import Mathlib

/-!
Shallow embedding of the cash-flow projector of `src/utils.py`
(`build_cashflow`) and of the savings-challenge slot computation of
`src/db.py` (`_min_n_for_target`), together with theorems settling the
specification claims about them.

Modelling conventions:
* Calendar dates are modelled as integers (epoch-day numbers); the
  pandas daily grid `pd.date_range(start, end, freq="D")` becomes the
  list of consecutive integers from `start` to `stop` inclusive.
* A pandas column value that may fail to parse is modelled as an
  `Option`: `pd.to_datetime(col, errors="coerce")` yields `none` (NaT)
  for an unparsable date, and `pd.to_numeric(col, errors="coerce")`
  yields `none` (NaN) for an unparsable amount; `.fillna(0.0)` becomes
  `Option.getD · 0`.
* Monetary amounts are modelled as rationals (`ℚ`); the float
  operations of the source (`-`, `+`, `cumsum`) are modelled exactly.
* A DataFrame is a list of records; `None` arguments are `Option.none`.
-/

namespace Financas

/-- A raw transaction record as seen by `build_cashflow` after the
column coercions of `src/utils.py` lines 25-27: `date` is the result of
`pd.to_datetime(..., errors="coerce")` (`none` = NaT, unparsable),
`type` is the raw string (normalised by `normType` below),
`amount` is the result of `pd.to_numeric(..., errors="coerce")`
(`none` = NaN, unparsable), and `paid` is the stored 0/1 flag tested by
`df["paid"] == 1` on line 23. -/
structure TxRecord where
  date : Option ℤ
  type : String
  amount : Option ℚ
  paid : ℤ
deriving DecidableEq

/-- A raw adjustment record as seen by `build_cashflow` lines 46-47. -/
structure AdjRecord where
  date : Option ℤ
  amount : Option ℚ
deriving DecidableEq

/-- One output row of `build_cashflow` (the columns of the result
DataFrame, lines 30-52 of `src/utils.py`): `data` the calendar day,
`entrada` the income total, `saida` the expense total, `ajuste` the
adjustment total, `saldo_dia` the day balance and `saldo_acumulado`
the running balance. -/
structure LedgerRow where
  data : ℤ
  entrada : ℚ
  saida : ℚ
  ajuste : ℚ
  saldo_dia : ℚ
  saldo_acumulado : ℚ
deriving DecidableEq

/-- `df["type"].astype(str).str.strip().str.lower()` (line 26). -/
def normType (s : String) : String := s.trim.toLower

/-- `.fillna(0.0)` applied to a coerced numeric value (lines 27, 47). -/
def amountOf (a : Option ℚ) : ℚ := a.getD 0

/-- The settlement filter plus empty-input default of lines 17-23:
a `None` or empty transaction frame becomes the empty frame, and when
`only_paid` holds only rows with `paid == 1` are kept. -/
def txFiltered (df_tx : Option (List TxRecord)) (only_paid : Bool) :
    List TxRecord :=
  let df0 := match df_tx with
    | none => []
    | some l => l
  if only_paid then df0.filter (fun t => decide (t.paid = 1)) else df0

/-- The per-day transaction aggregation of lines 33-34 and 39-40:
`df[df["type"] == ty].groupby("date")["amount"].sum()` looked up at day
`d` with `.fillna(0.0)`.  Rows whose date is NaT (`none`) never match a
grid day, exactly as pandas `groupby` drops NaT keys. -/
def sumAmounts (df : List TxRecord) (d : ℤ) (ty : String) : ℚ :=
  ((df.filter fun t => decide (t.date = some d ∧ normType t.type = ty)).map
    fun t => amountOf t.amount).sum

/-- Lines 32-40: when the filtered frame is empty the grouped series is
empty and the mapped column is all zeros; otherwise the grouped sum. -/
def colSum (df : List TxRecord) (d : ℤ) (ty : String) : ℚ :=
  if df.isEmpty then 0 else sumAmounts df d ty

/-- The adjustment aggregation of line 48:
`a.groupby("date")["amount"].sum()` looked up at day `d` with
`.fillna(0.0)` (line 49). -/
def adjSum (a : List AdjRecord) (d : ℤ) : ℚ :=
  ((a.filter fun r => decide (r.date = some d)).map
    fun r => amountOf r.amount).sum

/-- Lines 42-49: a `None` or empty adjustment frame yields an all-zero
`ajuste` column, otherwise the grouped per-day sum. -/
def ajusteCol (df_adj : Option (List AdjRecord)) (d : ℤ) : ℚ :=
  match df_adj with
  | none => 0
  | some a => if a.isEmpty then 0 else adjSum a d

/-- `pd.date_range(start=start, end=stop, freq="D")` (line 29) as a
list of epoch days: consecutive integers from `start` to `stop`
inclusive; empty when `stop < start` (pandas returns an empty index
then, it raises no error). -/
def dateRange (start stop : ℤ) : List ℤ :=
  (List.range (stop - start + 1).toNat).map fun (i : ℕ) => start + (i : ℤ)

/-- One output row before the cumulative sum: the column values that
lines 39-51 assign for grid day `d` (`saldo_acumulado` is a placeholder
overwritten by the `cumsum` of line 52). -/
def rowAt (df : List TxRecord) (df_adj : Option (List AdjRecord))
    (d : ℤ) : LedgerRow :=
  let entrada := colSum df d "entrada"
  let saida := colSum df d "saida"
  let ajuste := ajusteCol df_adj d
  { data := d, entrada := entrada, saida := saida, ajuste := ajuste
    saldo_dia := entrada - saida - ajuste, saldo_acumulado := 0 }

/-- `out["saldo_acumulado"] = out["saldo_dia"].cumsum()` (line 52):
walk the rows accumulating `saldo_dia` into `saldo_acumulado`. -/
def cumsumFrom (acc : ℚ) : List LedgerRow → List LedgerRow
  | [] => []
  | r :: rs =>
    { r with saldo_acumulado := acc + r.saldo_dia } ::
      cumsumFrom (acc + r.saldo_dia) rs

/-- `build_cashflow(df_tx, start, end, only_paid, df_adj)` of
`src/utils.py` lines 10-53. -/
def build_cashflow (df_tx : Option (List TxRecord)) (start stop : ℤ)
    (only_paid : Bool) (df_adj : Option (List AdjRecord)) :
    List LedgerRow :=
  let df := txFiltered df_tx only_paid
  cumsumFrom 0 ((dateRange start stop).map (rowAt df df_adj))

/-- `int((((1 + 8 * target) ** 0.5) - 1) / 2)` of
`src/db.py` line 415, i.e. `⌊(√(1 + 8·target) − 1)/2⌋`, computed in
exact arithmetic: for `target > 0` this is the largest `n` with
`n·(n+1) ≤ 2·target` (see `triFloor_mul_le` and `lt_triFloor_succ_mul`
below). -/
def triFloor (target : ℚ) : ℕ :=
  (Nat.sqrt (4 * (⌊2 * target⌋).toNat + 1) - 1) / 2

/-- `_min_n_for_target` of `src/db.py` lines 411-418, with the float
arithmetic of the source modelled exactly over `ℚ`. -/
def min_n_for_target (target : ℚ) : ℕ :=
  if target ≤ 0 then 1
  else
    let n := triFloor target
    let n' := if ((n : ℚ) * (n + 1)) / 2 < target then n + 1 else n
    max 1 n'

/-! ### Structural lemmas about the embedding -/

theorem cumsumFrom_length (acc : ℚ) (l : List LedgerRow) :
    (cumsumFrom acc l).length = l.length := by
  induction l generalizing acc with
  | nil => rfl
  | cons r rs ih => simp [cumsumFrom, ih]

theorem cumsumFrom_get (l : List LedgerRow) (acc : ℚ) (i : ℕ)
    (h1 : i < (cumsumFrom acc l).length) (h2 : i < l.length) :
    (cumsumFrom acc l).get ⟨i, h1⟩ =
      { l.get ⟨i, h2⟩ with
        saldo_acumulado :=
          acc + ((l.take (i + 1)).map LedgerRow.saldo_dia).sum } := by
  induction l generalizing acc i with
  | nil => simp at h2
  | cons r rs ih =>
    cases i with
    | zero => simp [cumsumFrom]
    | succ j =>
      have hj : j < rs.length := by simpa using h2
      have hj1 : j < (cumsumFrom (acc + r.saldo_dia) rs).length := by
        rw [cumsumFrom_length]; exact hj
      have := ih (acc + r.saldo_dia) j hj1 hj
      simp only [cumsumFrom, List.get_cons_succ, this, List.take_succ_cons,
        List.map_cons, List.sum_cons]
      congr 1
      ring

/-- `cumsumFrom` only rewrites the `saldo_acumulado` column: any
projection invariant under that rewrite is preserved. -/
theorem cumsumFrom_map {α : Type} (g : LedgerRow → α)
    (hg : ∀ (r : LedgerRow) (s : ℚ), g { r with saldo_acumulado := s } = g r)
    (acc : ℚ) (l : List LedgerRow) :
    (cumsumFrom acc l).map g = l.map g := by
  induction l generalizing acc with
  | nil => rfl
  | cons r rs ih => simp [cumsumFrom, ih, hg]

theorem dateRange_length (start stop : ℤ) :
    (dateRange start stop).length = (stop - start + 1).toNat := by
  rw [dateRange, List.length_map, List.length_range]

theorem dateRange_get (start stop : ℤ) (i : ℕ)
    (h : i < (dateRange start stop).length) :
    (dateRange start stop).get ⟨i, h⟩ = start + (i : ℤ) := by
  simp only [dateRange, List.get_map]
  congr 1
  exact congrArg _ (List.get_range _ _)

theorem dateRange_mem (start stop d : ℤ) (hd : d ∈ dateRange start stop) :
    start ≤ d ∧ d ≤ stop := by
  rw [dateRange, List.mem_map] at hd
  obtain ⟨i, hi, rfl⟩ := hd
  rw [List.mem_range] at hi
  omega

theorem build_cashflow_length (df_tx : Option (List TxRecord))
    (start stop : ℤ) (b : Bool) (df_adj : Option (List AdjRecord)) :
    (build_cashflow df_tx start stop b df_adj).length
      = (stop - start + 1).toNat := by
  simp [build_cashflow, cumsumFrom_length, dateRange_length]

/-- Full characterisation of row `i` of the output series: the column
values of `rowAt` at day `start + i`, with `saldo_acumulado` the prefix
sum of the day balances up to and including day `i`. -/
theorem build_cashflow_get (df_tx : Option (List TxRecord))
    (start stop : ℤ) (b : Bool) (df_adj : Option (List AdjRecord))
    (i : ℕ) (h : i < (build_cashflow df_tx start stop b df_adj).length) :
    (build_cashflow df_tx start stop b df_adj).get ⟨i, h⟩ =
      { rowAt (txFiltered df_tx b) df_adj (start + (i : ℤ)) with
        saldo_acumulado :=
          ((List.range (i + 1)).map fun (j : ℕ) =>
            (rowAt (txFiltered df_tx b) df_adj
              (start + (j : ℤ))).saldo_dia).sum } := by
  have hlen : i < ((dateRange start stop).map
      (rowAt (txFiltered df_tx b) df_adj)).length := by
    have := h
    rw [build_cashflow_length] at this
    simpa [dateRange_length] using this
  have hd : i < (dateRange start stop).length := by simpa using hlen
  unfold build_cashflow
  rw [cumsumFrom_get _ _ _ _ hlen]
  have hget : ((dateRange start stop).map
      (rowAt (txFiltered df_tx b) df_adj)).get ⟨i, hlen⟩ =
      rowAt (txFiltered df_tx b) df_adj (start + (i : ℤ)) := by
    rw [List.get_map]
    congr 1
    exact dateRange_get start stop i hd
  rw [hget]
  have htake : (((dateRange start stop).map
      (rowAt (txFiltered df_tx b) df_adj)).take (i + 1)).map
        LedgerRow.saldo_dia =
      (List.range (i + 1)).map fun (j : ℕ) =>
        (rowAt (txFiltered df_tx b) df_adj (start + (j : ℤ))).saldo_dia := by
    rw [← List.map_take, dateRange, ← List.map_take, List.take_range]
    have hmin : min (i + 1) (stop - start + 1).toNat = i + 1 := by
      rw [dateRange_length] at hd
      omega
    rw [hmin, List.map_map, List.map_map]
    rfl
  rw [htake, zero_add]

/-! ### Aggregation and filter lemmas -/

theorem sumAmounts_nil (d : ℤ) (ty : String) : sumAmounts [] d ty = 0 := rfl

theorem colSum_eq (df : List TxRecord) (d : ℤ) (ty : String) :
    colSum df d ty = sumAmounts df d ty := by
  cases df with
  | nil => rfl
  | cons t l => rfl

theorem sumAmounts_cons (t : TxRecord) (l : List TxRecord) (d : ℤ)
    (ty : String) :
    sumAmounts (t :: l) d ty =
      (if t.date = some d ∧ normType t.type = ty then amountOf t.amount
       else 0) + sumAmounts l d ty := by
  unfold sumAmounts
  rw [List.filter_cons]
  by_cases hc : t.date = some d ∧ normType t.type = ty
  · simp [hc]
  · simp [hc]

theorem sumAmounts_append (l1 l2 : List TxRecord) (d : ℤ) (ty : String) :
    sumAmounts (l1 ++ l2) d ty = sumAmounts l1 d ty + sumAmounts l2 d ty := by
  unfold sumAmounts
  rw [List.filter_append, List.map_append, List.sum_append]

theorem sumAmounts_insert (t : TxRecord) (l1 l2 : List TxRecord) (d : ℤ)
    (ty : String) :
    sumAmounts (l1 ++ t :: l2) d ty =
      sumAmounts (l1 ++ l2) d ty +
        (if t.date = some d ∧ normType t.type = ty then amountOf t.amount
         else 0) := by
  rw [sumAmounts_append, sumAmounts_append, sumAmounts_cons]
  ring

theorem adjSum_cons (a : AdjRecord) (l : List AdjRecord) (d : ℤ) :
    adjSum (a :: l) d =
      (if a.date = some d then amountOf a.amount else 0) + adjSum l d := by
  unfold adjSum
  rw [List.filter_cons]
  by_cases hc : a.date = some d
  · simp [hc]
  · simp [hc]

theorem adjSum_append (l1 l2 : List AdjRecord) (d : ℤ) :
    adjSum (l1 ++ l2) d = adjSum l1 d + adjSum l2 d := by
  unfold adjSum
  rw [List.filter_append, List.map_append, List.sum_append]

theorem adjSum_insert (a : AdjRecord) (l1 l2 : List AdjRecord) (d : ℤ) :
    adjSum (l1 ++ a :: l2) d =
      adjSum (l1 ++ l2) d + (if a.date = some d then amountOf a.amount
        else 0) := by
  rw [adjSum_append, adjSum_append, adjSum_cons]
  ring

theorem ajusteCol_some (l : List AdjRecord) (d : ℤ) :
    ajusteCol (some l) d = adjSum l d := by
  cases l with
  | nil => rfl
  | cons a r => rfl

theorem txFiltered_none (b : Bool) : txFiltered none b = [] := by
  cases b <;> rfl

theorem txFiltered_some_false (l : List TxRecord) :
    txFiltered (some l) false = l := rfl

theorem txFiltered_some_true (l : List TxRecord) :
    txFiltered (some l) true = l.filter fun t => decide (t.paid = 1) := rfl

theorem txFiltered_append (l1 l2 : List TxRecord) (b : Bool) :
    txFiltered (some (l1 ++ l2)) b =
      txFiltered (some l1) b ++ txFiltered (some l2) b := by
  cases b with
  | false => rfl
  | true =>
    rw [txFiltered_some_true, txFiltered_some_true, txFiltered_some_true,
      List.filter_append]

theorem txFiltered_cons_kept (t : TxRecord) (l : List TxRecord) (b : Bool)
    (h : t.paid = 1) :
    txFiltered (some (t :: l)) b = t :: txFiltered (some l) b := by
  cases b with
  | false => rfl
  | true =>
    rw [txFiltered_some_true, txFiltered_some_true, List.filter_cons]
    simp [h]

theorem txFiltered_cons_dropped (t : TxRecord) (l : List TxRecord)
    (h : ¬ t.paid = 1) :
    txFiltered (some (t :: l)) true = txFiltered (some l) true := by
  rw [txFiltered_some_true, txFiltered_some_true, List.filter_cons]
  simp [h]

/-- Two invocations of `build_cashflow` over the same grid whose
effective per-day rows agree on every grid day produce the same
series. -/
theorem build_cashflow_congr (tx1 tx2 : Option (List TxRecord))
    (start stop : ℤ) (b1 b2 : Bool)
    (adj1 adj2 : Option (List AdjRecord))
    (h : ∀ d : ℤ, start ≤ d → d ≤ stop →
      rowAt (txFiltered tx1 b1) adj1 d = rowAt (txFiltered tx2 b2) adj2 d) :
    build_cashflow tx1 start stop b1 adj1
      = build_cashflow tx2 start stop b2 adj2 := by
  show cumsumFrom 0 ((dateRange start stop).map
      (rowAt (txFiltered tx1 b1) adj1))
    = cumsumFrom 0 ((dateRange start stop).map
      (rowAt (txFiltered tx2 b2) adj2))
  congr 1
  apply List.map_congr_left
  intro d hd
  obtain ⟨h1, h2⟩ := dateRange_mem start stop d hd
  exact h d h1 h2

/-! ### Triangular-number inverse lemmas -/

theorem floor_two_mul_nonneg (t : ℚ) (ht : 0 < t) : 0 ≤ ⌊2 * t⌋ :=
  Int.le_floor.mpr (by positivity)

theorem triFloor_mul_le (t : ℚ) (ht : 0 < t) :
    ((triFloor t : ℚ)) * ((triFloor t : ℚ) + 1) ≤ 2 * t := by
  have hfl : 0 ≤ ⌊2 * t⌋ := floor_two_mul_nonneg t ht
  set m : ℕ := (⌊2 * t⌋).toNat with hm
  set s : ℕ := Nat.sqrt (4 * m + 1) with hs
  have hs1 : s * s ≤ 4 * m + 1 := Nat.sqrt_le _
  have hspos : 0 < s := Nat.sqrt_pos.mpr (by omega)
  have h2n : 2 * ((s - 1) / 2) + 1 ≤ s := by omega
  have hq : (2 * ((s - 1) / 2) + 1) * (2 * ((s - 1) / 2) + 1) ≤ 4 * m + 1 :=
    le_trans (Nat.mul_le_mul h2n h2n) hs1
  have hnm : ((s - 1) / 2) * ((s - 1) / 2 + 1) ≤ m := by nlinarith [hq]
  have hmt : (m : ℚ) ≤ 2 * t := by
    have h1 : ((m : ℤ) : ℚ) ≤ 2 * t := by
      rw [hm, Int.toNat_of_nonneg hfl]
      exact Int.floor_le _
    exact_mod_cast h1
  have htri : triFloor t = (s - 1) / 2 := rfl
  rw [htri]
  calc ((((s - 1) / 2 : ℕ) : ℚ)) * ((((s - 1) / 2 : ℕ) : ℚ) + 1)
      = ((((s - 1) / 2) * ((s - 1) / 2 + 1) : ℕ) : ℚ) := by push_cast; ring
    _ ≤ (m : ℚ) := by exact_mod_cast hnm
    _ ≤ 2 * t := hmt

theorem lt_triFloor_succ_mul (t : ℚ) (ht : 0 < t) :
    2 * t < ((triFloor t : ℚ) + 1) * ((triFloor t : ℚ) + 2) := by
  have hfl : 0 ≤ ⌊2 * t⌋ := floor_two_mul_nonneg t ht
  set m : ℕ := (⌊2 * t⌋).toNat with hm
  set s : ℕ := Nat.sqrt (4 * m + 1) with hs
  have hs2 : 4 * m + 1 < (s + 1) * (s + 1) := Nat.lt_succ_sqrt _
  have hsn : s ≤ 2 * ((s - 1) / 2) + 2 := by omega
  have hq2 : (s + 1) * (s + 1) ≤
      (2 * ((s - 1) / 2) + 3) * (2 * ((s - 1) / 2) + 3) :=
    Nat.mul_le_mul (by omega) (by omega)
  have hnm : m < ((s - 1) / 2 + 1) * ((s - 1) / 2 + 2) := by
    nlinarith [lt_of_lt_of_le hs2 hq2]
  have hmt : 2 * t < (m : ℚ) + 1 := by
    have h1 : 2 * t < ((m : ℤ) : ℚ) + 1 := by
      rw [hm, Int.toNat_of_nonneg hfl]
      exact Int.lt_floor_add_one _
    exact_mod_cast h1
  have htri : triFloor t = (s - 1) / 2 := rfl
  rw [htri]
  have hcast : ((m : ℚ)) + 1 ≤
      ((((s - 1) / 2 : ℕ) : ℚ) + 1) * ((((s - 1) / 2 : ℕ) : ℚ) + 2) := by
    have h2 : (m + 1 : ℕ) ≤ ((s - 1) / 2 + 1) * ((s - 1) / 2 + 2) := hnm
    calc ((m : ℚ)) + 1 = ((m + 1 : ℕ) : ℚ) := by push_cast; ring
      _ ≤ ((((s - 1) / 2 + 1) * ((s - 1) / 2 + 2) : ℕ) : ℚ) := by
          exact_mod_cast h2
      _ = ((((s - 1) / 2 : ℕ) : ℚ) + 1) * ((((s - 1) / 2 : ℕ) : ℚ) + 2) := by
          push_cast; ring
  exact lt_of_lt_of_le hmt hcast

theorem min_n_for_target_pos_eq (t : ℚ) (ht : 0 < t) :
    min_n_for_target t =
      if ((triFloor t : ℚ)) * ((triFloor t : ℚ) + 1) / 2 < t
      then max 1 (triFloor t + 1) else max 1 (triFloor t) := by
  rw [min_n_for_target, if_neg (not_le.mpr ht)]
  show (max 1 (if ((triFloor t : ℚ)) * ((triFloor t : ℚ) + 1) / 2 < t
      then triFloor t + 1 else triFloor t)) = _
  by_cases hc : ((triFloor t : ℚ)) * ((triFloor t : ℚ) + 1) / 2 < t
  · rw [if_pos hc, if_pos hc]
  · rw [if_neg hc, if_neg hc]

theorem min_n_for_target_nonpos_eq (t : ℚ) (ht : t ≤ 0) :
    min_n_for_target t = 1 := by
  rw [min_n_for_target, if_pos ht]

/-! ### Claim theorems -/

/-- Claim C1, counterexample: with `start = 1 > 0 = end`, `build_cashflow`
reports no `InvalidRange` error (the embedding is a total function with no
error channel, as `pd.date_range` raises nothing there) and returns the
empty series — exactly the silent empty output the claim rules out. -/
theorem C1_counterexample : build_cashflow none 1 0 false none = [] := rfl

/-- Claim C1 as amended: for every pair of dates with `start` strictly
later than `end`, `build_cashflow` reports no error and silently returns
an empty series (zero rows) rather than an `InvalidRange` failure. -/
theorem C1_empty_on_reversed_range (df_tx : Option (List TxRecord))
    (start stop : ℤ) (b : Bool) (df_adj : Option (List AdjRecord))
    (h : stop < start) :
    build_cashflow df_tx start stop b df_adj = [] := by
  show cumsumFrom 0 ((dateRange start stop).map
    (rowAt (txFiltered df_tx b) df_adj)) = []
  have h0 : (stop - start + 1).toNat = 0 := by omega
  rw [dateRange, h0]
  rfl

/-- Witness for the amended claim C1 at `start = 1`, `end = 0`. -/
theorem C1_empty_on_reversed_range_witness :
    (0 : ℤ) < 1 ∧ build_cashflow (some []) 1 0 true none = [] :=
  ⟨by decide, C1_empty_on_reversed_range (some []) 1 0 true none (by decide)⟩

/-- Claim C2: for every valid inclusive range `[start, end]` with
`start ≤ end` and any transaction and adjustment inputs, the series
returned by `build_cashflow` contains exactly `(end - start).days + 1`
rows; in particular `start = end` yields exactly one row. -/
theorem C2_row_count (df_tx : Option (List TxRecord)) (start stop : ℤ)
    (b : Bool) (df_adj : Option (List AdjRecord)) (h : start ≤ stop) :
    (build_cashflow df_tx start stop b df_adj).length
      = (stop - start).toNat + 1 := by
  rw [build_cashflow_length]
  omega

/-- Witness for C2 at the single-day range `start = end = 0`. -/
theorem C2_row_count_witness :
    (0 : ℤ) ≤ 0 ∧
      (build_cashflow none 0 0 false none).length
        = ((0 : ℤ) - 0).toNat + 1 :=
  ⟨by decide, C2_row_count none 0 0 false none (by decide)⟩

/-- Claim C3: for every range and any inputs, the rows of the series
returned by `build_cashflow` carry strictly ascending consecutive dates:
each row's date is the predecessor's plus one, hence there are no gaps
and no duplicate dates. -/
theorem C3_ordering (df_tx : Option (List TxRecord)) (start stop : ℤ)
    (b : Bool) (df_adj : Option (List AdjRecord)) :
    List.Chain' (fun r1 r2 => r1.data + 1 = r2.data)
      (build_cashflow df_tx start stop b df_adj) := by
  rw [List.chain'_iff_get]
  intro i h
  have hlen := build_cashflow_length df_tx start stop b df_adj
  have h1 : i < (build_cashflow df_tx start stop b df_adj).length := by omega
  have h2 : i + 1 < (build_cashflow df_tx start stop b df_adj).length := by
    omega
  rw [build_cashflow_get df_tx start stop b df_adj i h1,
    build_cashflow_get df_tx start stop b df_adj (i + 1) h2]
  show (rowAt (txFiltered df_tx b) df_adj (start + (i : ℤ))).data + 1
    = (rowAt (txFiltered df_tx b) df_adj (start + ((i + 1 : ℕ) : ℤ))).data
  simp only [rowAt]
  push_cast
  ring

/-- A default all-zero row, used only as the out-of-range fallback of
`List.getD` in claim statements about row `i`. -/
def z0 : LedgerRow := ⟨0, 0, 0, 0, 0, 0⟩

theorem getD_of_lt {α : Type} (l : List α) (n : ℕ) (a : α)
    (h : n < l.length) : l.getD n a = l.get ⟨n, h⟩ := by
  rw [List.getD_eq_getElem?_getD, List.getElem?_eq_getElem h]
  rfl

/-- Claim C4: in every series returned by `build_cashflow`, each row
satisfies `saldo_dia = entrada - saida - ajuste`, the first row
satisfies `saldo_acumulado = saldo_dia`, and every row after the first
satisfies `saldo_acumulado[i] = saldo_acumulado[i-1] + saldo_dia[i]`. -/
theorem C4_balance_recurrence (df_tx : Option (List TxRecord))
    (start stop : ℤ) (b : Bool) (df_adj : Option (List AdjRecord))
    (i : ℕ) (h : i < (build_cashflow df_tx start stop b df_adj).length)
    (L : List LedgerRow)
    (hL : L = build_cashflow df_tx start stop b df_adj) :
    ((L.getD i z0).saldo_dia
      = (L.getD i z0).entrada - (L.getD i z0).saida - (L.getD i z0).ajuste)
    ∧ ((L.getD 0 z0).saldo_acumulado = (L.getD 0 z0).saldo_dia)
    ∧ (0 < i → (L.getD i z0).saldo_acumulado
        = (L.getD (i - 1) z0).saldo_acumulado + (L.getD i z0).saldo_dia) := by
  subst hL
  have h0 : 0 < (build_cashflow df_tx start stop b df_adj).length := by omega
  refine ⟨?_, ?_, ?_⟩
  · rw [getD_of_lt _ _ _ h,
      build_cashflow_get df_tx start stop b df_adj i h]
    simp [rowAt]
  · rw [getD_of_lt _ _ _ h0,
      build_cashflow_get df_tx start stop b df_adj 0 h0]
    have hr1 : List.range 1 = [0] := rfl
    simp [rowAt, hr1]
  · intro hi
    obtain ⟨j, rfl⟩ : ∃ j, i = j + 1 := ⟨i - 1, by omega⟩
    have hj : j < (build_cashflow df_tx start stop b df_adj).length := by
      omega
    rw [getD_of_lt _ _ _ h, Nat.add_sub_cancel, getD_of_lt _ _ _ hj,
      build_cashflow_get df_tx start stop b df_adj (j + 1) h,
      build_cashflow_get df_tx start stop b df_adj j hj]
    show ((List.range (j + 1 + 1)).map fun (k : ℕ) =>
        (rowAt (txFiltered df_tx b) df_adj (start + (k : ℤ))).saldo_dia).sum
      = ((List.range (j + 1)).map fun (k : ℕ) =>
        (rowAt (txFiltered df_tx b) df_adj (start + (k : ℤ))).saldo_dia).sum
        + _
    rw [List.sum_range_succ]

/-- The transaction scenario of §8 of the specification: an income of
100 on day 0 and an expense of 30 on day 2, both settled. -/
def txScenario : List TxRecord :=
  [⟨some 0, "entrada", some 100, 1⟩, ⟨some 2, "saida", some 30, 1⟩]

/-- Witness for C4 at row 2 of the three-day scenario of the
specification. -/
theorem C4_balance_recurrence_witness :
    (2 : ℕ) < (build_cashflow (some txScenario) 0 2 false none).length ∧
    (0 : ℕ) < 2 ∧
    ((build_cashflow (some txScenario) 0 2 false none).getD 2
        z0).saldo_acumulado
      = ((build_cashflow (some txScenario) 0 2 false none).getD (2 - 1)
          z0).saldo_acumulado
        + ((build_cashflow (some txScenario) 0 2 false none).getD 2
          z0).saldo_dia :=
  ⟨by decide, by decide,
    (C4_balance_recurrence (some txScenario) 0 2 false none 2 (by decide) _
      rfl).2.2 (by decide)⟩

/-- Claim C5: a transaction with `paid = 0` (unsettled) contributes its
amount to the income/expense total of its day when `only_paid = false`
and contributes nothing anywhere when `only_paid = true`; a transaction
with `paid = 1` makes the identical contribution under both flag
values. -/
theorem C5_settlement_filter (t : TxRecord) (l1 l2 : List TxRecord)
    (start stop : ℤ) (df_adj : Option (List AdjRecord)) :
    (¬ t.paid = 1 →
      build_cashflow (some (l1 ++ t :: l2)) start stop true df_adj
        = build_cashflow (some (l1 ++ l2)) start stop true df_adj)
    ∧ (∀ (d : ℤ) (ty : String),
      sumAmounts (txFiltered (some (l1 ++ t :: l2)) false) d ty
        = sumAmounts (txFiltered (some (l1 ++ l2)) false) d ty
          + (if t.date = some d ∧ normType t.type = ty
             then amountOf t.amount else 0))
    ∧ (t.paid = 1 → ∀ (b : Bool) (d : ℤ) (ty : String),
      sumAmounts (txFiltered (some (l1 ++ t :: l2)) b) d ty
        = sumAmounts (txFiltered (some (l1 ++ l2)) b) d ty
          + (if t.date = some d ∧ normType t.type = ty
             then amountOf t.amount else 0)) := by
  refine ⟨?_, ?_, ?_⟩
  · intro hp
    have heq : txFiltered (some (l1 ++ t :: l2)) true
        = txFiltered (some (l1 ++ l2)) true := by
      rw [txFiltered_append, txFiltered_cons_dropped t l2 hp,
        ← txFiltered_append]
    apply build_cashflow_congr
    intro d _ _
    rw [heq]
  · intro d ty
    rw [txFiltered_some_false, txFiltered_some_false, sumAmounts_insert]
  · intro hp b d ty
    cases b with
    | false => rw [txFiltered_some_false, txFiltered_some_false,
        sumAmounts_insert]
    | true =>
      rw [txFiltered_append, txFiltered_cons_kept t l2 true hp,
        txFiltered_append, sumAmounts_insert]

/-- An unsettled income record used in witnesses. -/
def txUnpaid : TxRecord := ⟨some 0, "entrada", some 50, 0⟩

/-- Witness for C5: the unsettled record `txUnpaid` is dropped when
`only_paid = true`, contributes 50 when `only_paid = false`; the
settled head of `txScenario` contributes identically under both. -/
theorem C5_settlement_filter_witness :
    (¬ txUnpaid.paid = 1) ∧
    (build_cashflow (some [txUnpaid]) 0 1 true none
      = build_cashflow (some []) 0 1 true none) ∧
    (sumAmounts (txFiltered (some [txUnpaid]) false) 0 "entrada"
      = sumAmounts (txFiltered (some []) false) 0 "entrada"
        + (if txUnpaid.date = some 0 ∧ normType txUnpaid.type = "entrada"
           then amountOf txUnpaid.amount else 0)) ∧
    ((⟨some 0, "entrada", some 100, 1⟩ : TxRecord).paid = 1) ∧
    (sumAmounts (txFiltered
        (some [(⟨some 0, "entrada", some 100, 1⟩ : TxRecord)]) true)
        0 "entrada"
      = sumAmounts (txFiltered (some []) true) 0 "entrada"
        + (if (⟨some 0, "entrada", some 100, 1⟩ : TxRecord).date = some 0
             ∧ normType (⟨some 0, "entrada", some 100, 1⟩ : TxRecord).type
                = "entrada"
           then amountOf
             (⟨some 0, "entrada", some 100, 1⟩ : TxRecord).amount
           else 0)) :=
  ⟨by decide,
    (C5_settlement_filter txUnpaid [] [] 0 1 none).1 (by decide),
    (C5_settlement_filter txUnpaid [] [] 0 1 none).2.1 0 "entrada",
    rfl,
    (C5_settlement_filter ⟨some 0, "entrada", some 100, 1⟩ [] [] 0 1
      none).2.2 rfl true 0 "entrada"⟩

/-- The adjustment scenario of §8 of the specification: a simulated
outflow of 20 on day 1. -/
def adjScenario : List AdjRecord := [⟨some 1, some 20⟩]

/-- Claim C6: the `ajuste` column of the series is identical under
`only_paid = true` and `only_paid = false`, its value on row `i` is the
per-day adjustment sum (independent of any settlement notion), and it
always enters the day balance as a deduction
(`saldo_dia = entrada - saida - ajuste`). -/
theorem C6_adjustment_flag_independent (df_tx : Option (List TxRecord))
    (start stop : ℤ) (df_adj : Option (List AdjRecord)) :
    ((build_cashflow df_tx start stop true df_adj).map LedgerRow.ajuste
      = (build_cashflow df_tx start stop false df_adj).map LedgerRow.ajuste)
    ∧ (∀ (b : Bool) (i : ℕ),
      i < (build_cashflow df_tx start stop b df_adj).length →
      ((build_cashflow df_tx start stop b df_adj).getD i z0).ajuste
          = ajusteCol df_adj (start + (i : ℤ))
        ∧ ((build_cashflow df_tx start stop b df_adj).getD i z0).saldo_dia
          = ((build_cashflow df_tx start stop b df_adj).getD i z0).entrada
            - ((build_cashflow df_tx start stop b df_adj).getD i z0).saida
            - ((build_cashflow df_tx start stop b df_adj).getD i
                z0).ajuste) := by
  constructor
  · show (cumsumFrom 0 ((dateRange start stop).map
        (rowAt (txFiltered df_tx true) df_adj))).map LedgerRow.ajuste
      = (cumsumFrom 0 ((dateRange start stop).map
        (rowAt (txFiltered df_tx false) df_adj))).map LedgerRow.ajuste
    rw [cumsumFrom_map LedgerRow.ajuste (fun r s => rfl),
      cumsumFrom_map LedgerRow.ajuste (fun r s => rfl),
      List.map_map, List.map_map]
    apply List.map_congr_left
    intro d _
    rfl
  · intro b i h
    rw [getD_of_lt _ _ _ h, build_cashflow_get df_tx start stop b df_adj i h]
    constructor
    · simp [rowAt]
    · simp [rowAt]

/-- Witness for C6 on the adjustment scenario of the specification at
row 1. -/
theorem C6_adjustment_flag_independent_witness :
    ((build_cashflow (some txScenario) 0 2 true (some adjScenario)).map
        LedgerRow.ajuste
      = (build_cashflow (some txScenario) 0 2 false (some adjScenario)).map
        LedgerRow.ajuste) ∧
    (1 : ℕ) < (build_cashflow (some txScenario) 0 2 false
        (some adjScenario)).length ∧
    ((build_cashflow (some txScenario) 0 2 false
        (some adjScenario)).getD 1 z0).ajuste
      = ajusteCol (some adjScenario) (0 + ((1 : ℕ) : ℤ)) :=
  ⟨(C6_adjustment_flag_independent (some txScenario) 0 2
      (some adjScenario)).1,
    by decide,
    ((C6_adjustment_flag_independent (some txScenario) 0 2
      (some adjScenario)).2 false 1 (by decide)).1⟩

/-- Claim C7: a transaction or adjustment whose date failed to parse
(NaT) contributes nothing to any day's totals yet causes no error; one
whose amount failed to parse (NaN) behaves exactly as the same record
with amount `0` (coerced and retained); in all cases the full date grid
is returned. -/
theorem C7_malformed_records (start stop : ℤ) (b : Bool) :
    (∀ (t : TxRecord) (l1 l2 : List TxRecord)
        (df_adj : Option (List AdjRecord)), t.date = none →
      build_cashflow (some (l1 ++ t :: l2)) start stop b df_adj
        = build_cashflow (some (l1 ++ l2)) start stop b df_adj)
    ∧ (∀ (t : TxRecord) (l1 l2 : List TxRecord)
        (df_adj : Option (List AdjRecord)), t.amount = none →
      build_cashflow (some (l1 ++ t :: l2)) start stop b df_adj
        = build_cashflow
            (some (l1 ++ { t with amount := some 0 } :: l2)) start stop b
            df_adj)
    ∧ (∀ (df_tx : Option (List TxRecord)) (a : AdjRecord)
        (m1 m2 : List AdjRecord), a.date = none →
      build_cashflow df_tx start stop b (some (m1 ++ a :: m2))
        = build_cashflow df_tx start stop b (some (m1 ++ m2)))
    ∧ (∀ (df_tx : Option (List TxRecord)) (a : AdjRecord)
        (m1 m2 : List AdjRecord), a.amount = none →
      build_cashflow df_tx start stop b (some (m1 ++ a :: m2))
        = build_cashflow df_tx start stop b
            (some (m1 ++ { a with amount := some 0 } :: m2)))
    ∧ (∀ (df_tx : Option (List TxRecord))
        (df_adj : Option (List AdjRecord)),
      (build_cashflow df_tx start stop b df_adj).length
        = (dateRange start stop).length) := by
  refine ⟨?_, ?_, ?_, ?_, ?_⟩
  · intro t l1 l2 df_adj ht
    have hcol : ∀ (d : ℤ) (ty : String),
        colSum (txFiltered (some (l1 ++ t :: l2)) b) d ty
          = colSum (txFiltered (some (l1 ++ l2)) b) d ty := by
      intro d ty
      rw [colSum_eq, colSum_eq]
      cases b with
      | false =>
        rw [txFiltered_some_false, txFiltered_some_false, sumAmounts_insert]
        simp [ht]
      | true =>
        by_cases hp : t.paid = 1
        · rw [txFiltered_append, txFiltered_cons_kept t l2 true hp,
            txFiltered_append, sumAmounts_insert]
          simp [ht]
        · rw [txFiltered_append, txFiltered_cons_dropped t l2 hp,
            ← txFiltered_append]
    apply build_cashflow_congr
    intro d _ _
    simp only [rowAt, hcol]
  · intro t l1 l2 df_adj ht
    have hcol : ∀ (d : ℤ) (ty : String),
        colSum (txFiltered (some (l1 ++ t :: l2)) b) d ty
          = colSum (txFiltered
              (some (l1 ++ { t with amount := some 0 } :: l2)) b) d ty := by
      intro d ty
      rw [colSum_eq, colSum_eq]
      cases b with
      | false =>
        rw [txFiltered_some_false, txFiltered_some_false,
          sumAmounts_insert, sumAmounts_insert]
        simp [ht, amountOf]
      | true =>
        by_cases hp : t.paid = 1
        · have hp' : ({ t with amount := some 0 } : TxRecord).paid = 1 := hp
          rw [txFiltered_append, txFiltered_cons_kept t l2 true hp,
            txFiltered_append,
            txFiltered_cons_kept { t with amount := some 0 } l2 true hp',
            sumAmounts_insert, sumAmounts_insert]
          simp [ht, amountOf]
        · have hp' : ¬ ({ t with amount := some 0 } : TxRecord).paid = 1 :=
            hp
          rw [txFiltered_append, txFiltered_cons_dropped t l2 hp,
            txFiltered_append,
            txFiltered_cons_dropped { t with amount := some 0 } l2 hp']
    apply build_cashflow_congr
    intro d _ _
    simp only [rowAt, hcol]
  · intro df_tx a m1 m2 ha
    have hadj : ∀ d : ℤ, ajusteCol (some (m1 ++ a :: m2)) d
        = ajusteCol (some (m1 ++ m2)) d := by
      intro d
      rw [ajusteCol_some, ajusteCol_some, adjSum_insert]
      simp [ha]
    apply build_cashflow_congr
    intro d _ _
    simp only [rowAt, hadj]
  · intro df_tx a m1 m2 ha
    have hadj : ∀ d : ℤ, ajusteCol (some (m1 ++ a :: m2)) d
        = ajusteCol (some (m1 ++ { a with amount := some 0 } :: m2)) d := by
      intro d
      rw [ajusteCol_some, ajusteCol_some, adjSum_insert, adjSum_insert]
      simp [ha, amountOf]
    apply build_cashflow_congr
    intro d _ _
    simp only [rowAt, hadj]
  · intro df_tx df_adj
    rw [build_cashflow_length, dateRange_length]

/-- Witness for C7: a NaT-dated transaction and adjustment vanish, a
NaN amount behaves as zero, and the grid length is unharmed, on a
two-day range. -/
theorem C7_malformed_records_witness :
    ((⟨none, "entrada", some 9, 1⟩ : TxRecord).date = none) ∧
    (build_cashflow (some [⟨none, "entrada", some 9, 1⟩]) 0 1 false none
      = build_cashflow (some []) 0 1 false none) ∧
    ((⟨some 0, "saida", none, 1⟩ : TxRecord).amount = none) ∧
    (build_cashflow (some [⟨some 0, "saida", none, 1⟩]) 0 1 false none
      = build_cashflow (some [⟨some 0, "saida", some 0, 1⟩]) 0 1 false
          none) ∧
    ((⟨none, some 7⟩ : AdjRecord).date = none) ∧
    (build_cashflow none 0 1 false (some [⟨none, some 7⟩])
      = build_cashflow none 0 1 false (some [])) ∧
    ((⟨some 0, none⟩ : AdjRecord).amount = none) ∧
    (build_cashflow none 0 1 false (some [⟨some 0, none⟩])
      = build_cashflow none 0 1 false (some [⟨some 0, some 0⟩])) ∧
    ((build_cashflow (some [⟨none, "entrada", some 9, 1⟩]) 0 1 false
        none).length = (dateRange 0 1).length) :=
  ⟨rfl,
    (C7_malformed_records 0 1 false).1 ⟨none, "entrada", some 9, 1⟩ [] []
      none rfl,
    rfl,
    (C7_malformed_records 0 1 false).2.1 ⟨some 0, "saida", none, 1⟩ [] []
      none rfl,
    rfl,
    (C7_malformed_records 0 1 false).2.2.1 none ⟨none, some 7⟩ [] [] rfl,
    rfl,
    (C7_malformed_records 0 1 false).2.2.2.1 none ⟨some 0, none⟩ [] [] rfl,
    (C7_malformed_records 0 1 false).2.2.2.2
      (some [⟨none, "entrada", some 9, 1⟩]) none⟩

/-- Claim C10: a transaction or adjustment whose parsed date lies
strictly outside the inclusive range `[start, end]` contributes nothing
to any row of the series and triggers no error: the output is identical
to the output without that record. -/
theorem C10_out_of_range_ignored (start stop : ℤ) (b : Bool) :
    (∀ (t : TxRecord) (d : ℤ) (l1 l2 : List TxRecord)
        (df_adj : Option (List AdjRecord)),
      t.date = some d → (d < start ∨ stop < d) →
      build_cashflow (some (l1 ++ t :: l2)) start stop b df_adj
        = build_cashflow (some (l1 ++ l2)) start stop b df_adj)
    ∧ (∀ (df_tx : Option (List TxRecord)) (a : AdjRecord) (d : ℤ)
        (m1 m2 : List AdjRecord),
      a.date = some d → (d < start ∨ stop < d) →
      build_cashflow df_tx start stop b (some (m1 ++ a :: m2))
        = build_cashflow df_tx start stop b (some (m1 ++ m2))) := by
  constructor
  · intro t d l1 l2 df_adj ht hout
    apply build_cashflow_congr
    intro e h1 h2
    have hne : ¬ t.date = some e := by
      rw [ht]
      intro hc
      have : d = e := Option.some_injective _ hc
      omega
    have hcol : ∀ ty : String,
        colSum (txFiltered (some (l1 ++ t :: l2)) b) e ty
          = colSum (txFiltered (some (l1 ++ l2)) b) e ty := by
      intro ty
      rw [colSum_eq, colSum_eq]
      cases b with
      | false =>
        rw [txFiltered_some_false, txFiltered_some_false, sumAmounts_insert]
        simp [hne]
      | true =>
        by_cases hp : t.paid = 1
        · rw [txFiltered_append, txFiltered_cons_kept t l2 true hp,
            txFiltered_append, sumAmounts_insert]
          simp [hne]
        · rw [txFiltered_append, txFiltered_cons_dropped t l2 hp,
            ← txFiltered_append]
    simp only [rowAt, hcol]
  · intro df_tx a d m1 m2 ha hout
    apply build_cashflow_congr
    intro e h1 h2
    have hne : ¬ a.date = some e := by
      rw [ha]
      intro hc
      have : d = e := Option.some_injective _ hc
      omega
    have hadj : ajusteCol (some (m1 ++ a :: m2)) e
        = ajusteCol (some (m1 ++ m2)) e := by
      rw [ajusteCol_some, ajusteCol_some, adjSum_insert]
      simp [hne]
    simp only [rowAt, hadj]

/-- Witness for C10: an income dated day 9 and an adjustment dated day
-3 both leave the series over days 0..2 untouched. -/
theorem C10_out_of_range_ignored_witness :
    ((⟨some 9, "entrada", some 5, 1⟩ : TxRecord).date = some 9) ∧
    ((2 : ℤ) < 9) ∧
    (build_cashflow (some [⟨some 9, "entrada", some 5, 1⟩]) 0 2 false none
      = build_cashflow (some []) 0 2 false none) ∧
    ((⟨some (-3), some 4⟩ : AdjRecord).date = some (-3)) ∧
    ((-3 : ℤ) < 0) ∧
    (build_cashflow none 0 2 false (some [⟨some (-3), some 4⟩])
      = build_cashflow none 0 2 false (some [])) :=
  ⟨rfl, by decide,
    (C10_out_of_range_ignored 0 2 false).1 ⟨some 9, "entrada", some 5, 1⟩
      9 [] [] none rfl (Or.inr (by decide)),
    rfl, by decide,
    (C10_out_of_range_ignored 0 2 false).2 none ⟨some (-3), some 4⟩ (-3)
      [] [] rfl (Or.inl (by decide))⟩

/-- Claim C8: with empty (or absent) transactions and empty (or absent)
adjustments, `build_cashflow` returns the full date grid and every row
has all-zero `entrada`, `saida`, `ajuste`, `saldo_dia` and
`saldo_acumulado`. -/
theorem C8_zero_input (df_tx : Option (List TxRecord)) (start stop : ℤ)
    (b : Bool) (df_adj : Option (List AdjRecord))
    (htx : df_tx = none ∨ df_tx = some [])
    (hadj : df_adj = none ∨ df_adj = some []) :
    ((build_cashflow df_tx start stop b df_adj).map LedgerRow.data
      = dateRange start stop)
    ∧ (∀ r ∈ build_cashflow df_tx start stop b df_adj,
      r.entrada = 0 ∧ r.saida = 0 ∧ r.ajuste = 0 ∧ r.saldo_dia = 0
        ∧ r.saldo_acumulado = 0) := by
  have hdf : txFiltered df_tx b = [] := by
    rcases htx with rfl | rfl
    · exact txFiltered_none b
    · cases b <;> rfl
  have hadj0 : ∀ d : ℤ, ajusteCol df_adj d = 0 := by
    rcases hadj with rfl | rfl <;> intro d <;> rfl
  have hrow : ∀ d : ℤ, rowAt (txFiltered df_tx b) df_adj d
      = { data := d, entrada := 0, saida := 0, ajuste := 0
          saldo_dia := 0, saldo_acumulado := 0 } := by
    intro d
    rw [hdf]
    simp [rowAt, colSum, hadj0]
  constructor
  · show (cumsumFrom 0 ((dateRange start stop).map
      (rowAt (txFiltered df_tx b) df_adj))).map LedgerRow.data
      = dateRange start stop
    rw [cumsumFrom_map LedgerRow.data (fun r s => rfl), List.map_map]
    conv_rhs => rw [← List.map_id (dateRange start stop)]
    apply List.map_congr_left
    intro d _
    simp [hrow]
  · intro r hr
    rw [List.mem_iff_get] at hr
    obtain ⟨⟨i, hi⟩, rfl⟩ := hr
    rw [build_cashflow_get df_tx start stop b df_adj i hi]
    refine ⟨by simp [hrow], by simp [hrow], by simp [hrow],
      by simp [hrow], ?_⟩
    show ((List.range (i + 1)).map fun (j : ℕ) =>
      (rowAt (txFiltered df_tx b) df_adj (start + (j : ℤ))).saldo_dia).sum
      = 0
    apply List.sum_eq_zero
    intro x hx
    rw [List.mem_map] at hx
    obtain ⟨j, _, rfl⟩ := hx
    simp [hrow]

/-- Witness for C8: the empty inputs over days 0..2 yield the bare date
grid, and its first row (the all-zero row `z0` at day 0) has every
financial column equal to zero. -/
theorem C8_zero_input_witness :
    ((none : Option (List TxRecord)) = none
      ∨ (none : Option (List TxRecord)) = some []) ∧
    ((build_cashflow none 0 2 false none).map LedgerRow.data
      = dateRange 0 2) ∧
    (((build_cashflow none 0 2 false none).getD 0 z0).entrada = 0
      ∧ ((build_cashflow none 0 2 false none).getD 0 z0).saida = 0
      ∧ ((build_cashflow none 0 2 false none).getD 0 z0).ajuste = 0
      ∧ ((build_cashflow none 0 2 false none).getD 0 z0).saldo_dia = 0
      ∧ ((build_cashflow none 0 2 false none).getD 0 z0).saldo_acumulado
          = 0) :=
  have h0 : 0 < (build_cashflow none 0 2 false none).length := by decide
  have hm : (build_cashflow none 0 2 false none).getD 0 z0
      ∈ build_cashflow none 0 2 false none := by
    rw [getD_of_lt _ _ _ h0]
    exact List.get_mem _ _ _
  ⟨Or.inl rfl,
    (C8_zero_input none 0 2 false none (Or.inl rfl) (Or.inl rfl)).1,
    (C8_zero_input none 0 2 false none (Or.inl rfl) (Or.inl rfl)).2 _ hm⟩

/-- Claim C9: for `target > 0`, `_min_n_for_target` (modelled in exact
arithmetic over `ℚ`) returns the minimum positive `n` with
`n·(n+1)/2 ≥ target`, and it returns `1` for `target ≤ 0`. -/
theorem C9_min_n_minimal (t : ℚ) (ht : 0 < t) :
    (0 < min_n_for_target t
      ∧ t ≤ ((min_n_for_target t : ℚ)) * ((min_n_for_target t : ℚ) + 1) / 2
      ∧ ∀ k : ℕ, 0 < k → t ≤ ((k : ℚ)) * ((k : ℚ) + 1) / 2 →
          min_n_for_target t ≤ k)
    ∧ (∀ u : ℚ, u ≤ 0 → min_n_for_target u = 1) := by
  refine ⟨?_, fun u hu => min_n_for_target_nonpos_eq u hu⟩
  have hA := triFloor_mul_le t ht
  have hB := lt_triFloor_succ_mul t ht
  rw [min_n_for_target_pos_eq t ht]
  by_cases hc : ((triFloor t : ℚ)) * ((triFloor t : ℚ) + 1) / 2 < t
  · rw [if_pos hc]
    have hmax : max 1 (triFloor t + 1) = triFloor t + 1 := by omega
    rw [hmax]
    refine ⟨by omega, ?_, ?_⟩
    · push_cast
      nlinarith [hB]
    · intro k hk hkt
      by_contra hlt
      push_neg at hlt
      have hk0 : (k : ℚ) ≤ (triFloor t : ℚ) := by
        exact_mod_cast Nat.lt_succ_iff.mp hlt
      have hknn : (0 : ℚ) ≤ (k : ℚ) := Nat.cast_nonneg k
      nlinarith [hc, hkt]
  · rw [if_neg hc]
    push_neg at hc
    have heq : t = ((triFloor t : ℚ)) * ((triFloor t : ℚ) + 1) / 2 :=
      le_antisymm hc (by nlinarith [hA])
    have hn0pos : 0 < triFloor t := by
      rcases Nat.eq_zero_or_pos (triFloor t) with h00 | hpos
      · rw [h00] at heq
        norm_num at heq
        exact absurd heq (ne_of_gt ht)
      · exact hpos
    have hmax : max 1 (triFloor t) = triFloor t := by omega
    rw [hmax]
    refine ⟨hn0pos, hc, ?_⟩
    intro k hk hkt
    by_contra hlt
    push_neg at hlt
    have hk1 : (k : ℚ) + 1 ≤ (triFloor t : ℚ) := by exact_mod_cast hlt
    have hknn : (0 : ℚ) ≤ (k : ℚ) := Nat.cast_nonneg k
    nlinarith [hkt, heq]

/-- Witness for C9 at `target = 11` (minimal slot count 5, since
`4·5/2 = 10 < 11 ≤ 15 = 5·6/2`) and at the nonpositive target `0`. -/
theorem C9_min_n_minimal_witness :
    (0 : ℚ) < 11 ∧
    0 < min_n_for_target 11 ∧
    (11 : ℚ) ≤ ((min_n_for_target 11 : ℚ))
      * ((min_n_for_target 11 : ℚ) + 1) / 2 ∧
    (0 < 5 ∧ (11 : ℚ) ≤ ((5 : ℕ) : ℚ) * (((5 : ℕ) : ℚ) + 1) / 2) ∧
    min_n_for_target 11 ≤ 5 ∧
    ((0 : ℚ) ≤ 0 ∧ min_n_for_target 0 = 1) :=
  ⟨by norm_num,
    (C9_min_n_minimal 11 (by norm_num)).1.1,
    (C9_min_n_minimal 11 (by norm_num)).1.2.1,
    ⟨by norm_num, by norm_num⟩,
    (C9_min_n_minimal 11 (by norm_num)).1.2.2 5 (by norm_num) (by norm_num),
    ⟨le_refl 0, (C9_min_n_minimal 11 (by norm_num)).2 0 (le_refl 0)⟩⟩

end Financas
